import Mathlib

/-!
Shallow embedding of the quacktokenscope core: the SentencePiece tokenizer
variant (src/quacktokenscope/utils/tokenizers/sentencepiece_tokenizer.py),
the cost-calculator CLI handler
(src/quacktokenscope/education/cli/calculate_cost.py), and — modelled from
the specification, since their modules are not part of the three source
files — the cost model and the what-if scenario explorer.

External collaborators (the transformers T5Tokenizer, the sentencepiece
library, and the QuackCore FS service) are abstracted: their observable
behaviour is a parameter (an environment record of success flags, a file
system state, and backend function records), and the repository code is
translated as a total function of those parameters.  A Python exception
that the repository catches is a `false` success flag in the environment;
the embedded functions are total, so an error that the code swallows can
never escape as an exception.
-/

/-- The model object held in `self._tokenizer` after a successful
`initialize`: either a pretrained T5 wrapper (transformers branch) or a
SentencePiece model loaded from the file `models/sentencepiece.model`,
identified by that file's content. -/
inductive LoadedModel where
  | t5 (modelName : String)
  | spmModel (content : String)
deriving DecidableEq, Repr

/-- Observable state of the tokenizer object: `none` models
`_initialized == False` (no usable `_tokenizer`), `some m` models
`_initialized == True` with model `m` loaded.  The source keeps the two
fields separately but every public operation consults only
`_initialized`, and `initialize` sets it only after a load succeeded. -/
abbrev TokState := Option LoadedModel

/-- Success flags of the external libraries used by `initialize`:
whether `T5Tokenizer.from_pretrained` succeeds, whether
`import sentencepiece` succeeds, whether `SentencePieceTrainer.train`
raises no exception, and whether `SentencePieceProcessor.load` succeeds
on an existing model file. -/
structure SpEnv where
  t5Available : Bool
  spmImportOk : Bool
  trainOk : Bool
  loadOk : Bool
deriving DecidableEq, Repr

/-- State of the QuackCore file-store capability as seen by the variant:
the content of `models/sentencepiece.model` (`none` = the file does not
exist), and whether `create_directory`, `create_temp_directory` and
`write_text` report success. -/
structure FsState where
  modelContent : Option String
  canCreateDir : Bool
  canCreateTemp : Bool
  canWrite : Bool
deriving DecidableEq, Repr

/-- The externally visible steps `initialize` performs, in order, used to
state that a winning strategy stops all later ones. -/
inductive InitStep where
  | loadPretrained
  | createModelsDir
  | statModel
  | createTempDir
  | writeTrainFile
  | trainModel
  | loadModelFile
deriving DecidableEq, Repr

/-- Result of one `initialize` call: the returned boolean, the tokenizer
state afterwards, the file-store state afterwards, and the trace of steps
attempted. -/
structure InitResult where
  success : Bool
  state : TokState
  fs : FsState
  trace : List InitStep
deriving DecidableEq, Repr

/-- ClassVar `model_name = "t5-base"` of `SentencePieceTokenizer`. -/
def model_name : String := "t5-base"

/-- The embedded sample corpus written to `train.txt` by the training
fallback (lines 89-93 of the source). -/
def sample_text : String :=
  "This is a sample text for SentencePiece training.\n" ++
  "It contains some words and sentences to build a small model.\n" ++
  "The model will be very limited but sufficient for demonstration.\n"

/-- Content of the model artifact produced by
`SentencePieceTrainer.train` on the embedded sample corpus with
`vocab_size=100`, `character_coverage=1.0`, `model_type=unigram`: training
is a deterministic function of that fixed corpus and those fixed flags. -/
def trainedModelContent : String :=
  "unigram vocab 100 coverage 1.0 trained on: " ++ sample_text

/-- `SentencePieceTokenizer.initialize` (source lines 40-120).  Strategy
order as in the code: (1) load the pretrained T5 wrapper and return True
at once; on its failure (2) import sentencepiece, create `./models`,
stat `models/sentencepiece.model` and, if it exists, load it; (3) if it
does not exist, create a temp directory, write the sample corpus, train
a minimal model (persisting the artifact), then load it.  Every failure
returns False: a failed FS result returns False directly, and any
exception is caught by the outer handlers (lines 115-120), so nothing
escapes the call. -/
def initTokenizer (env : SpEnv) (fs : FsState) (st : TokState) : InitResult :=
  if env.t5Available then
    ⟨true, some (.t5 model_name), fs, [.loadPretrained]⟩
  else if env.spmImportOk then
    if fs.canCreateDir then
      match fs.modelContent with
      | some c =>
        if env.loadOk then
          ⟨true, some (.spmModel c), fs,
            [.loadPretrained, .createModelsDir, .statModel, .loadModelFile]⟩
        else
          ⟨false, st, fs,
            [.loadPretrained, .createModelsDir, .statModel, .loadModelFile]⟩
      | none =>
        if fs.canCreateTemp then
          if fs.canWrite then
            if env.trainOk then
              if env.loadOk then
                ⟨true, some (.spmModel trainedModelContent),
                  { fs with modelContent := some trainedModelContent },
                  [.loadPretrained, .createModelsDir, .statModel, .createTempDir,
                    .writeTrainFile, .trainModel, .loadModelFile]⟩
              else
                ⟨false, st, { fs with modelContent := some trainedModelContent },
                  [.loadPretrained, .createModelsDir, .statModel, .createTempDir,
                    .writeTrainFile, .trainModel, .loadModelFile]⟩
            else
              ⟨false, st, fs,
                [.loadPretrained, .createModelsDir, .statModel, .createTempDir,
                  .writeTrainFile, .trainModel]⟩
          else
            ⟨false, st, fs,
              [.loadPretrained, .createModelsDir, .statModel, .createTempDir,
                .writeTrainFile]⟩
        else
          ⟨false, st, fs,
            [.loadPretrained, .createModelsDir, .statModel, .createTempDir]⟩
    else
      ⟨false, st, fs, [.loadPretrained, .createModelsDir]⟩
  else
    ⟨false, st, fs, [.loadPretrained]⟩

/-- Behaviour of the pretrained T5 wrapper used by the T5 branch:
`encode(text, add_special_tokens=False)`, the per-id conversion that
`convert_ids_to_tokens` applies to each id of the sequence, `decode`
with `skip_special_tokens=True`, and `vocab_size`. -/
structure T5Backend where
  encode : String → List Int
  convertId : Int → String
  decodeIds : List Int → String
  vocab_size : Nat

/-- Behaviour of a loaded direct SentencePiece processor: `encode`
segments the text into pieces, each carrying an id (`out_type=int`) and a
surface string (`out_type=str`); `decode`; `get_piece_size`. -/
structure SpmBackend where
  pieces : String → List (Int × String)
  decodeIds : List Int → String
  piece_size : Nat

/-- Error raised by the public operations when `_initialized` is False
(`RuntimeError("Tokenizer not initialized")` in the source). -/
inductive TokErr where
  | notInitialized
deriving DecidableEq, Repr

namespace SentencePieceTokenizer

/-- `SentencePieceTokenizer.tokenize` (source lines 122-145).  The
source's `hasattr(self._tokenizer, "encode")` dispatch between the
T5Tokenizer and a direct SentencePiece processor is modelled by the kind
of the loaded model, which is what the source's comments say the check
distinguishes.  T5 branch: ids from `encode`, strings by converting each
id.  Direct branch: the ids and the strings of the same segmentation. -/
def tokenize (b1 : T5Backend) (b2 : SpmBackend) (st : TokState) (text : String) :
    Except TokErr (List Int × List String) :=
  match st with
  | none => .error .notInitialized
  | some (.t5 _) =>
      let ids := b1.encode text
      .ok (ids, ids.map b1.convertId)
  | some (.spmModel _) =>
      .ok ((b2.pieces text).map Prod.fst, (b2.pieces text).map Prod.snd)

/-- `SentencePieceTokenizer.decode` (source lines 147-165), dispatching
like `tokenize` on the kind of the loaded model. -/
def decode (b1 : T5Backend) (b2 : SpmBackend) (st : TokState) (ids : List Int) :
    Except TokErr String :=
  match st with
  | none => .error .notInitialized
  | some (.t5 _) => .ok (b1.decodeIds ids)
  | some (.spmModel _) => .ok (b2.decodeIds ids)

/-- `SentencePieceTokenizer.get_vocab_size` (source lines 167-182). -/
def get_vocab_size (b1 : T5Backend) (b2 : SpmBackend) (st : TokState) :
    Except TokErr Nat :=
  match st with
  | none => .error .notInitialized
  | some (.t5 _) => .ok b1.vocab_size
  | some (.spmModel _) => .ok b2.piece_size

end SentencePieceTokenizer

/-- Documented guarantee of the T5 wrapper: decoding the encoding of a
non-empty text yields a non-empty text (the tokenization is lossless up
to normalization, and non-empty input produces at least one token). -/
def T5Backend.roundtripNonempty (b : T5Backend) : Prop :=
  ∀ s, s ≠ "" → b.decodeIds (b.encode s) ≠ ""

/-- Documented guarantee of a SentencePiece processor, stated on the id
sequence of its own segmentation. -/
def SpmBackend.roundtripNonempty (b : SpmBackend) : Prop :=
  ∀ s, s ≠ "" → b.decodeIds ((b.pieces s).map Prod.fst) ≠ ""

/-- One row of the pricing table: model name and per-1000-token input and
output rates.  Rates are modelled as exact rationals; the spec demands at
least double precision and exact zeros, which ℚ satisfies. -/
structure PricingEntry where
  model : String
  input_rate : ℚ
  output_rate : ℚ
deriving DecidableEq, Repr

/-- Cost result: input cost, output cost, and their sum. -/
structure CostBreakdown where
  input_cost : ℚ
  output_cost : ℚ
  total_cost : ℚ
deriving DecidableEq, Repr

/-- Error for a model name absent from the pricing table. -/
inductive CostError where
  | unknownModel
deriving DecidableEq, Repr

/-- Modelled from the spec: the cost formulas of `compute_cost` applied to
one pricing entry — input_cost = input_tokens / 1000 × input_rate,
output_cost = output_tokens / 1000 × output_rate, total their sum.  The
module `quacktokenscope.education.cost_calculator` holding this code is
not among the source files. -/
def entryCost (e : PricingEntry) (inputTokens outputTokens : ℚ) : CostBreakdown :=
  let ic := inputTokens / 1000 * e.input_rate
  let oc := outputTokens / 1000 * e.output_rate
  ⟨ic, oc, ic + oc⟩

/-- Lookup by exact model name in the pricing table. -/
def lookupModel (table : List PricingEntry) (m : String) : Option PricingEntry :=
  table.find? (fun e => e.model == m)

/-- Modelled from the spec: `compute_cost(input_tokens, output_tokens,
model)` of `quacktokenscope.education.cost_calculator` (not among the
source files) — look the model up in the table, fail with
`UnknownModelError` when absent, else apply the cost formulas. -/
def compute_cost (table : List PricingEntry) (inputTokens outputTokens : ℕ)
    (m : String) : Except CostError CostBreakdown :=
  match lookupModel table m with
  | none => .error .unknownModel
  | some e => .ok (entryCost e (inputTokens : ℚ) (outputTokens : ℚ))

/-- Modelled from the spec: the static pricing table.  The spec pins only
the `gpt-4-turbo` row (input 0.01, output 0.03 per 1000 tokens); theorems
below quantify over arbitrary tables and use this one as the concrete
instance. -/
def PRICING : List PricingEntry :=
  [⟨"gpt-4-turbo", 1 / 100, 3 / 100⟩]

/-- Modelled from the spec: `compare_models(input_tokens, output_tokens)`
of `quacktokenscope.education.cost_calculator` (not among the source
files) — one CostBreakdown per pricing-table entry, keyed by model name,
in table (insertion) order. -/
def compare_models (table : List PricingEntry) (inputTokens outputTokens : ℕ) :
    List (String × CostBreakdown) :=
  table.map (fun e => (e.model, entryCost e (inputTokens : ℚ) (outputTokens : ℚ)))

/-- Order in which `handle_calculate_cost_command` (source lines 114-115)
presents the comparison rows: Python's stable `sorted` by
`total_cost`, which on the enumerated list is exactly the lexicographic
order on (total_cost, original position). -/
def rowLe (a b : ℕ × String × CostBreakdown) : Prop :=
  a.2.2.total_cost < b.2.2.total_cost ∨
    (a.2.2.total_cost = b.2.2.total_cost ∧ a.1 ≤ b.1)

instance : DecidableRel rowLe := fun a b => by
  unfold rowLe
  exact inferInstance

instance : IsTotal (ℕ × String × CostBreakdown) rowLe := by
  constructor
  intro a b
  rcases lt_trichotomy a.2.2.total_cost b.2.2.total_cost with h | h | h
  · exact Or.inl (Or.inl h)
  · rcases Nat.le_total a.1 b.1 with h2 | h2
    · exact Or.inl (Or.inr ⟨h, h2⟩)
    · exact Or.inr (Or.inr ⟨h.symm, h2⟩)
  · exact Or.inr (Or.inl h)

instance : IsTrans (ℕ × String × CostBreakdown) rowLe := by
  constructor
  intro a b c hab hbc
  rcases hab with h1 | h1 <;> rcases hbc with h2 | h2
  · exact Or.inl (h1.trans h2)
  · exact Or.inl (h2.1 ▸ h1)
  · exact Or.inl (h1.1 ▸ h2)
  · exact Or.inr ⟨h1.1.trans h2.1, h1.2.trans h2.2⟩

/-- The rows of the comparison table in display order: the source sorts
`results.items()` with Python's stable `sorted` keyed on `total_cost`
(calculate_cost.py lines 114-115); a stable sort by a key equals sorting
the enumerated rows lexicographically by (key, original index). -/
def displayRows (results : List (String × CostBreakdown)) :
    List (ℕ × String × CostBreakdown) :=
  List.insertionSort rowLe results.enum

/-- Modelled from the spec: one varied parameter of a what-if sweep —
an output-token multiplier (output tokens = multiplier × input tokens)
or an alternate model substitution. -/
inductive SweepParam where
  | outputMultiplier (q : ℚ)
  | altModel (m : String)
deriving DecidableEq, Repr

/-- Modelled from the spec: a Scenario pairs a descriptive label with the
cost computed for that point of the sweep. -/
structure Scenario where
  label : String
  cost : CostBreakdown
deriving DecidableEq, Repr

/-- Label attached to a sweep point. -/
def scenarioLabel : SweepParam → String
  | .outputMultiplier q =>
      "output tokens = " ++ toString q.num ++ "/" ++ toString q.den ++ " x input"
  | .altModel m => "model = " ++ m

/-- Modelled from the spec: evaluate one sweep point through the cost
model at the token counts it implies.  A multiplier point keeps the base
model and sets output tokens to multiplier × input tokens; an
alternate-model point substitutes the model and keeps the base 1x
output-token count.  An unknown model surfaces as `none`, never a
silent default. -/
def evalScenario (table : List PricingEntry) (baseModel : String)
    (inputTokens : ℚ) : SweepParam → Option Scenario
  | .outputMultiplier q =>
      (lookupModel table baseModel).map (fun e =>
        ⟨scenarioLabel (.outputMultiplier q), entryCost e inputTokens (q * inputTokens)⟩)
  | .altModel m =>
      (lookupModel table m).map (fun e =>
        ⟨scenarioLabel (.altModel m), entryCost e inputTokens inputTokens⟩)

/-- Modelled from the spec: evaluate a declared sweep in order, producing
one Scenario per point. -/
def evalSweep (table : List PricingEntry) (baseModel : String) (inputTokens : ℚ) :
    List SweepParam → Option (List Scenario)
  | [] => some []
  | p :: ps =>
      match evalScenario table baseModel inputTokens p,
            evalSweep table baseModel inputTokens ps with
      | some s, some l => some (s :: l)
      | _, _ => none

/-- The example sweep named by the spec: output-token multipliers
0, 0.5, 1 and 2 times the input-token count. -/
def default_sweep : List SweepParam :=
  [.outputMultiplier 0, .outputMultiplier (1 / 2), .outputMultiplier 1,
    .outputMultiplier 2]

/-- The inputs of one explorer run: base text, chosen tokenizer (its
backends and its state), chosen model, declared sweep. -/
structure WhatIfInputs where
  text : String
  t5b : T5Backend
  spmb : SpmBackend
  tokState : TokState
  model : String
  sweep : List SweepParam

/-- Modelled from the spec: `run_what_if_analysis` of
`quacktokenscope.education.challenges.what_if` (not among the source
files) — tokenize the base text with the chosen tokenizer to obtain the
input-token count, then evaluate the sweep through the cost model,
yielding an ordered Scenario sequence. -/
def run_what_if_analysis (table : List PricingEntry) (inp : WhatIfInputs) :
    Option (List Scenario) :=
  match SentencePieceTokenizer.tokenize inp.t5b inp.spmb inp.tokState inp.text with
  | .error _ => none
  | .ok p => evalSweep table inp.model (p.1.length : ℚ) inp.sweep

/-- A node of the CLI file system: a regular file with content (readable
or not) or a directory. -/
inductive FileNode where
  | file (content : String) (readable : Bool)
  | directory
deriving DecidableEq, Repr

/-- Errors surfaced by the cost-calculator command model. -/
inductive CliError where
  | readFailure
  | notInitialized
deriving DecidableEq, Repr

/-- Input resolution of `handle_calculate_cost_command` (calculate_cost.py
lines 53-62): when `input_text` names an existing regular file, its
content silently replaces the literal text (a failing read aborts the
command with an error); otherwise — no such path, or the path is a
directory — the literal string itself is the text. -/
def resolveInputText (fsys : String → Option FileNode) (input_text : String) :
    Except CliError String :=
  match fsys input_text with
  | some (.file c r) => if r then .ok c else .error .readFailure
  | some .directory => .ok input_text
  | none => .ok input_text

/-- Token counting of `handle_calculate_cost_command` (calculate_cost.py
line 84): `input_tokens = len(tokenizer_instance.tokenize(text)[0])`. -/
def tokenCountOf (b1 : T5Backend) (b2 : SpmBackend) (st : TokState)
    (text : String) : Except CliError Nat :=
  match SentencePieceTokenizer.tokenize b1 b2 st text with
  | .error _ => .error .notInitialized
  | .ok p => .ok p.1.length

/-- The text-to-token-count pipeline of `handle_calculate_cost_command`:
resolve the input (file content or literal), then count tokens on the
resolved text. -/
def countInputTokens (fsys : String → Option FileNode) (b1 : T5Backend)
    (b2 : SpmBackend) (st : TokState) (input_text : String) :
    Except CliError Nat :=
  match resolveInputText fsys input_text with
  | .error e => .error e
  | .ok text => tokenCountOf b1 b2 st text

/-- A successful `initialize` always leaves a loaded model behind: the
source sets `_initialized = True` only right after assigning a loaded
`_tokenizer`. -/
theorem initTokenizer_state_of_success (env : SpEnv) (fs : FsState) (st : TokState)
    (h : (initTokenizer env fs st).success = true) :
    ∃ m, (initTokenizer env fs st).state = some m := by
  rcases env with ⟨t5, sok, tok, lok⟩
  rcases fs with ⟨mc, cd, ct, cw⟩
  cases t5 <;> cases sok <;> cases cd <;> cases mc <;> cases ct <;> cases cw <;>
    cases tok <;> cases lok <;> simp_all [initTokenizer]

/-- C1: initialize() attempts its strategies in the fixed priority order
— pretrained T5 wrapper, then the local model artifact, then (only when
no artifact exists) training a minimal model from the embedded sample
corpus and persisting it — and the first successful strategy wins: a
T5 success returns at once with no file-store step attempted, an
existing artifact is loaded without any training step, the training
fallback runs exactly when no artifact exists and persists the model,
and exhaustion of the strategies returns failure. -/
theorem c1_first_strategy_wins (env : SpEnv) (fs : FsState) (st : TokState)
    (c : String) :
    (env.t5Available = true →
      initTokenizer env fs st =
        ⟨true, some (.t5 model_name), fs, [.loadPretrained]⟩) ∧
    (env.t5Available = false → env.spmImportOk = true → fs.canCreateDir = true →
      fs.modelContent = some c → env.loadOk = true →
      (initTokenizer env fs st).success = true ∧
      (initTokenizer env fs st).state = some (.spmModel c) ∧
      InitStep.trainModel ∉ (initTokenizer env fs st).trace) ∧
    (env.t5Available = false → env.spmImportOk = true → fs.canCreateDir = true →
      fs.modelContent = none → fs.canCreateTemp = true → fs.canWrite = true →
      env.trainOk = true → env.loadOk = true →
      (initTokenizer env fs st).success = true ∧
      (initTokenizer env fs st).state = some (.spmModel trainedModelContent) ∧
      (initTokenizer env fs st).fs.modelContent = some trainedModelContent ∧
      InitStep.trainModel ∈ (initTokenizer env fs st).trace) ∧
    (env.t5Available = false → env.spmImportOk = false →
      (initTokenizer env fs st).success = false) := by
  refine ⟨?_, ?_, ?_, ?_⟩
  · intro h1
    simp [initTokenizer, h1]
  · intro h1 h2 h3 h4 h5
    simp [initTokenizer, h1, h2, h3, h4, h5]
  · intro h1 h2 h3 h4 h5 h6 h7 h8
    simp [initTokenizer, h1, h2, h3, h4, h5, h6, h7, h8]
  · intro h1 h2
    simp [initTokenizer, h1, h2]

/-- C2: tokenize, decode and get_vocab_size each fail with the
not-initialized error when called before a successful initialize()
(state `none`), and after a successful initialize() none of them can
return that error. -/
theorem c2_requires_initialization (b1 : T5Backend) (b2 : SpmBackend)
    (env : SpEnv) (fs : FsState) (st : TokState) (text : String) (ids : List Int) :
    SentencePieceTokenizer.tokenize b1 b2 none text = .error .notInitialized ∧
    SentencePieceTokenizer.decode b1 b2 none ids = .error .notInitialized ∧
    SentencePieceTokenizer.get_vocab_size b1 b2 none = .error .notInitialized ∧
    ((initTokenizer env fs st).success = true →
      SentencePieceTokenizer.tokenize b1 b2 (initTokenizer env fs st).state text ≠
        Except.error TokErr.notInitialized ∧
      SentencePieceTokenizer.decode b1 b2 (initTokenizer env fs st).state ids ≠
        Except.error TokErr.notInitialized ∧
      SentencePieceTokenizer.get_vocab_size b1 b2 (initTokenizer env fs st).state ≠
        Except.error TokErr.notInitialized) := by
  refine ⟨rfl, rfl, rfl, ?_⟩
  intro h
  obtain ⟨m, hm⟩ := initTokenizer_state_of_success env fs st h
  rw [hm]
  cases m <;>
    simp [SentencePieceTokenizer.tokenize, SentencePieceTokenizer.decode,
      SentencePieceTokenizer.get_vocab_size]

/-- C3: every file-store failure during initialize() — directory
creation, temp-directory creation, or the training-file write — makes
initialize() return failure for this variant; the embedded initialize is
a total function into `InitResult`, so no such error can escape the call
as an exception. -/
theorem c3_fs_failure_scoped (env : SpEnv) (fs : FsState) (st : TokState) :
    (env.t5Available = false → env.spmImportOk = true → fs.canCreateDir = false →
      (initTokenizer env fs st).success = false) ∧
    (env.t5Available = false → env.spmImportOk = true → fs.canCreateDir = true →
      fs.modelContent = none → fs.canCreateTemp = false →
      (initTokenizer env fs st).success = false) ∧
    (env.t5Available = false → env.spmImportOk = true → fs.canCreateDir = true →
      fs.modelContent = none → fs.canCreateTemp = true → fs.canWrite = false →
      (initTokenizer env fs st).success = false) := by
  refine ⟨?_, ?_, ?_⟩
  · intro h1 h2 h3
    simp [initTokenizer, h1, h2, h3]
  · intro h1 h2 h3 h4 h5
    simp [initTokenizer, h1, h2, h3, h4, h5]
  · intro h1 h2 h3 h4 h5 h6
    simp [initTokenizer, h1, h2, h3, h4, h5, h6]

/-- C4: after a successful initialize(), tokenize returns two parallel
sequences of equal length in both branches — the T5 branch converts each
id of the encoded sequence to one token string, the direct branch takes
the ids and the strings of one and the same segmentation. -/
theorem c4_tokenize_parallel_lengths (b1 : T5Backend) (b2 : SpmBackend)
    (env : SpEnv) (fs : FsState) (st : TokState) (text : String)
    (h : (initTokenizer env fs st).success = true) :
    ∃ ids strs,
      SentencePieceTokenizer.tokenize b1 b2 (initTokenizer env fs st).state text =
        .ok (ids, strs) ∧ ids.length = strs.length := by
  obtain ⟨m, hm⟩ := initTokenizer_state_of_success env fs st h
  rw [hm]
  cases m with
  | t5 n =>
      exact ⟨b1.encode text, (b1.encode text).map b1.convertId, rfl, by
        simp⟩
  | spmModel c =>
      exact ⟨(b2.pieces text).map Prod.fst, (b2.pieces text).map Prod.snd, rfl, by
        simp⟩

/-- C5: for backends satisfying the libraries' round-trip guarantee
(decoding the encoding of non-empty text is non-empty), after a
successful initialize() and for non-empty text, decode applied to the
ids produced by tokenize returns successfully — no exception and in
particular no not-initialized error — and the decoded string is
non-empty; the decode call dispatches to the same loaded model that
produced the ids. -/
theorem c5_decode_tokenize_nonempty (b1 : T5Backend) (b2 : SpmBackend)
    (env : SpEnv) (fs : FsState) (st : TokState) (text : String)
    (hb1 : b1.roundtripNonempty) (hb2 : b2.roundtripNonempty)
    (h : (initTokenizer env fs st).success = true) (ht : text ≠ "") :
    ∃ ids strs out,
      SentencePieceTokenizer.tokenize b1 b2 (initTokenizer env fs st).state text =
        .ok (ids, strs) ∧
      SentencePieceTokenizer.decode b1 b2 (initTokenizer env fs st).state ids =
        .ok out ∧ out ≠ "" := by
  obtain ⟨m, hm⟩ := initTokenizer_state_of_success env fs st h
  rw [hm]
  cases m with
  | t5 n =>
      exact ⟨b1.encode text, (b1.encode text).map b1.convertId,
        b1.decodeIds (b1.encode text), rfl, rfl, hb1 text ht⟩
  | spmModel c =>
      exact ⟨(b2.pieces text).map Prod.fst, (b2.pieces text).map Prod.snd,
        b2.decodeIds ((b2.pieces text).map Prod.fst), rfl, rfl, hb2 text ht⟩

/-- C8: initialize() is idempotent — after a successful call, calling it
again (same environment, the file-store state and tokenizer state the
first call left behind) succeeds again, leaves the same loaded model and
the same file-store state, and performs no training step: an artifact
persisted by the training fallback is reused, not retrained. -/
theorem c8_initialize_idempotent (env : SpEnv) (fs : FsState) (st : TokState)
    (h : (initTokenizer env fs st).success = true) :
    (initTokenizer env (initTokenizer env fs st).fs
        (initTokenizer env fs st).state).success = true ∧
    (initTokenizer env (initTokenizer env fs st).fs
        (initTokenizer env fs st).state).state = (initTokenizer env fs st).state ∧
    (initTokenizer env (initTokenizer env fs st).fs
        (initTokenizer env fs st).state).fs = (initTokenizer env fs st).fs ∧
    InitStep.trainModel ∉
      (initTokenizer env (initTokenizer env fs st).fs
        (initTokenizer env fs st).state).trace := by
  rcases env with ⟨t5, sok, tok, lok⟩
  rcases fs with ⟨mc, cd, ct, cw⟩
  cases t5 <;> cases sok <;> cases cd <;> cases mc <;> cases ct <;> cases cw <;>
    cases tok <;> cases lok <;> simp_all [initTokenizer]

/-- Total cost of one pricing entry is monotone in the input-token count
when the input rate is nonnegative. -/
theorem entryCost_total_mono (e : PricingEntry) (hin : 0 ≤ e.input_rate)
    (i j o : ℚ) (hij : i ≤ j) :
    (entryCost e i o).total_cost ≤ (entryCost e j o).total_cost := by
  simp only [entryCost]
  have hdiv : i / 1000 ≤ j / 1000 :=
    (div_le_div_iff_of_pos_right (by norm_num : (0:ℚ) < 1000)).mpr hij
  have hmul : i / 1000 * e.input_rate ≤ j / 1000 * e.input_rate :=
    mul_le_mul_of_nonneg_right hdiv hin
  exact add_le_add_right hmul _

/-- Doubling the input tokens with the output tokens fixed never
decreases any entry's total cost, stated entrywise over the whole
comparison. -/
theorem compare_models_mono (i o : ℕ) (table : List PricingEntry)
    (h : ∀ e ∈ table, 0 ≤ e.input_rate ∧ 0 ≤ e.output_rate) :
    List.Forall₂ (fun a b => a.1 = b.1 ∧ a.2.total_cost ≤ b.2.total_cost)
      (compare_models table i o) (compare_models table (2 * i) o) := by
  induction table with
  | nil => exact List.Forall₂.nil
  | cons e t ih =>
      refine List.Forall₂.cons ⟨rfl, ?_⟩
        (ih (fun x hx => h x (List.mem_cons_of_mem e hx)))
      refine entryCost_total_mono e (h e (List.mem_cons_self e t)).1 _ _ _ ?_
      push_cast
      have h0 : (0:ℚ) ≤ (i:ℚ) := Nat.cast_nonneg i
      linarith

/-- C6: compute_cost applies the per-1000-token rate formulas of the
looked-up entry, fails with the unknown-model error when the model is
absent from the table, maps zero token counts to exactly zero costs,
and on the concrete scenario (1000 input, 500 output, gpt-4-turbo at
rates 0.01 and 0.03) yields input_cost 0.01, output_cost 0.015 and
total_cost 0.025. -/
theorem c6_compute_cost_formulas (table : List PricingEntry) (i o : ℕ)
    (m : String) (e : PricingEntry) :
    (lookupModel table m = some e →
      compute_cost table i o m =
        .ok ⟨(i : ℚ) / 1000 * e.input_rate, (o : ℚ) / 1000 * e.output_rate,
          (i : ℚ) / 1000 * e.input_rate + (o : ℚ) / 1000 * e.output_rate⟩) ∧
    (lookupModel table m = none →
      compute_cost table i o m = .error .unknownModel) ∧
    (lookupModel table m = some e →
      compute_cost table 0 0 m = .ok ⟨0, 0, 0⟩) ∧
    compute_cost PRICING 1000 500 "gpt-4-turbo" =
      .ok ⟨1 / 100, 3 / 200, 1 / 40⟩ := by
  refine ⟨?_, ?_, ?_, ?_⟩
  · intro h
    simp [compute_cost, h, entryCost]
  · intro h
    simp [compute_cost, h]
  · intro h
    simp [compute_cost, h, entryCost]
  · show Except.ok (entryCost ⟨"gpt-4-turbo", 1 / 100, 3 / 100⟩ 1000 500) = _
    simp only [entryCost]
    norm_num

/-- C7: compare_models returns exactly one entry per pricing-table row,
keyed by the row's model and in table order; with nonnegative rates,
doubling the input tokens at fixed output tokens never decreases any
model's total cost; and the display order of the consumer — Python's
stable sort by total_cost, embedded as the lexicographic sort on (total
cost, insertion index) of the enumerated rows — is a permutation of the
rows sorted ascending by total cost with ties broken by insertion
order. -/
theorem c7_compare_models_order (table : List PricingEntry) (i o : ℕ) :
    (compare_models table i o).map Prod.fst = table.map PricingEntry.model ∧
    ((∀ e ∈ table, 0 ≤ e.input_rate ∧ 0 ≤ e.output_rate) →
      List.Forall₂ (fun a b => a.1 = b.1 ∧ a.2.total_cost ≤ b.2.total_cost)
        (compare_models table i o) (compare_models table (2 * i) o)) ∧
    List.Sorted rowLe (displayRows (compare_models table i o)) ∧
    List.Perm (displayRows (compare_models table i o))
      (compare_models table i o).enum := by
  refine ⟨?_, fun h => compare_models_mono i o table h, ?_, ?_⟩
  · simp [compare_models]
  · exact List.sorted_insertionSort rowLe _
  · exact List.perm_insertionSort rowLe _

/-- A produced scenario carries the label of the sweep point it came
from. -/
theorem evalScenario_label (table : List PricingEntry) (m : String) (it : ℚ)
    (p : SweepParam) (s : Scenario) (h : evalScenario table m it p = some s) :
    s.label = scenarioLabel p := by
  cases p with
  | outputMultiplier q =>
      simp only [evalScenario] at h
      rcases Option.map_eq_some'.mp h with ⟨e, he, hs⟩
      rw [← hs]
  | altModel mm =>
      simp only [evalScenario] at h
      rcases Option.map_eq_some'.mp h with ⟨e, he, hs⟩
      rw [← hs]

/-- A successful sweep evaluation yields scenarios labelled by the sweep
points, in sweep order. -/
theorem evalSweep_labels (table : List PricingEntry) (m : String) (it : ℚ) :
    ∀ (ps : List SweepParam) (l : List Scenario),
      evalSweep table m it ps = some l →
      l.map Scenario.label = ps.map scenarioLabel
  | [], l, h => by
      simp only [evalSweep, Option.some.injEq] at h
      subst h
      rfl
  | p :: ps, l, h => by
      simp only [evalSweep] at h
      cases hp : evalScenario table m it p with
      | none =>
          rw [hp] at h
          simp at h
      | some s =>
          cases hq : evalSweep table m it ps with
          | none =>
              rw [hp, hq] at h
              simp at h
          | some rest =>
              rw [hp, hq] at h
              simp only [Option.some.injEq] at h
              subst h
              simp [evalSweep_labels table m it ps rest hq,
                evalScenario_label table m it p s hp]

/-- C9: the scenario explorer is deterministic — two runs on equal
inputs (text, tokenizer, model, sweep specification) return equal
scenario sequences, and the sequence's order is fixed by the sweep: a
successful run's labels are exactly the sweep's labels in sweep
order. -/
theorem c9_what_if_deterministic (table : List PricingEntry)
    (a b : WhatIfInputs) (h : a = b) :
    run_what_if_analysis table a = run_what_if_analysis table b ∧
    Option.map (List.map Scenario.label) (run_what_if_analysis table a) =
      Option.map (fun _ => a.sweep.map scenarioLabel)
        (run_what_if_analysis table a) := by
  subst h
  refine ⟨rfl, ?_⟩
  cases hr : run_what_if_analysis table a with
  | none => rfl
  | some l =>
      simp only [Option.map_some']
      simp only [run_what_if_analysis] at hr
      cases ht : SentencePieceTokenizer.tokenize a.t5b a.spmb a.tokState a.text with
      | error e =>
          rw [ht] at hr
          simp at hr
      | ok p =>
          rw [ht] at hr
          rw [evalSweep_labels table a.model (p.1.length : ℚ) a.sweep l hr]

/-- C10: in the cost-calculator command, when the input string names an
existing readable regular file, the file content silently replaces the
literal text and the token count is computed from that content; a read
failure of an existing file aborts the command with an error; and when
no such file exists (no entry, or a directory), the literal string is
tokenized. -/
theorem c10_file_input_overrides_literal (fsys : String → Option FileNode)
    (b1 : T5Backend) (b2 : SpmBackend) (st : TokState) (s c : String) :
    (fsys s = some (.file c true) →
      resolveInputText fsys s = .ok c ∧
      countInputTokens fsys b1 b2 st s = tokenCountOf b1 b2 st c) ∧
    (fsys s = some (.file c false) →
      resolveInputText fsys s = .error .readFailure ∧
      countInputTokens fsys b1 b2 st s = .error .readFailure) ∧
    (fsys s = none →
      resolveInputText fsys s = .ok s ∧
      countInputTokens fsys b1 b2 st s = tokenCountOf b1 b2 st s) ∧
    (fsys s = some .directory →
      resolveInputText fsys s = .ok s ∧
      countInputTokens fsys b1 b2 st s = tokenCountOf b1 b2 st s) := by
  refine ⟨?_, ?_, ?_, ?_⟩ <;>
    intro h <;>
    simp [resolveInputText, countInputTokens, h]

/-- Demo environment: the pretrained T5 wrapper loads. -/
def envT5 : SpEnv := ⟨true, true, true, true⟩

/-- Demo environment: no transformers, direct SentencePiece available. -/
def envNoT5 : SpEnv := ⟨false, true, true, true⟩

/-- Demo file store: no model artifact yet, all operations succeed. -/
def fsEmpty : FsState := ⟨none, true, true, true⟩

/-- Demo file store: the models directory cannot be created. -/
def fsNoDir : FsState := ⟨none, false, true, true⟩

/-- Demo T5 wrapper: one token per text carrying its length. -/
def t5Demo : T5Backend :=
  ⟨fun s => [(s.length : Int)], fun i => toString i,
    fun ids => if ids.isEmpty then "" else "x", 32100⟩

/-- Demo SentencePiece processor: a single piece holding the whole
text. -/
def spmDemo : SpmBackend :=
  ⟨fun s => [((s.length : Int), s)],
    fun ids => if ids.isEmpty then "" else "y", 100⟩

/-- The demo T5 wrapper satisfies the round-trip guarantee. -/
theorem t5Demo_roundtrip : t5Demo.roundtripNonempty := by
  intro s hs
  simp [t5Demo, T5Backend.roundtripNonempty]

/-- The demo SentencePiece processor satisfies the round-trip
guarantee. -/
theorem spmDemo_roundtrip : spmDemo.roundtripNonempty := by
  intro s hs
  simp [spmDemo, SpmBackend.roundtripNonempty]

/-- Witness for C1: with the pretrained wrapper available, initialize
wins with the first strategy, attempting nothing else. -/
theorem c1_witness :
    initTokenizer envT5 fsEmpty none =
      ⟨true, some (.t5 model_name), fsEmpty, [.loadPretrained]⟩ :=
  (c1_first_strategy_wins envT5 fsEmpty none "m").1 rfl

/-- Witness for C2: tokenize fails with the not-initialized error on a
fresh variant and cannot return it after a successful initialize. -/
theorem c2_witness :
    SentencePieceTokenizer.tokenize t5Demo spmDemo none "hi" =
      .error .notInitialized ∧
    SentencePieceTokenizer.tokenize t5Demo spmDemo
      (initTokenizer envT5 fsEmpty none).state "hi" ≠
      Except.error TokErr.notInitialized :=
  ⟨(c2_requires_initialization t5Demo spmDemo envT5 fsEmpty none "hi" [1]).1,
    ((c2_requires_initialization t5Demo spmDemo envT5 fsEmpty none "hi" [1]).2.2.2
      rfl).1⟩

/-- Witness for C3: a failing directory creation makes initialize return
failure. -/
theorem c3_witness :
    (initTokenizer envNoT5 fsNoDir none).success = false :=
  (c3_fs_failure_scoped envNoT5 fsNoDir none).1 rfl rfl rfl

/-- Witness for C4: parallel sequences of equal length on a concrete
initialized variant. -/
theorem c4_witness :
    ∃ ids strs,
      SentencePieceTokenizer.tokenize t5Demo spmDemo
        (initTokenizer envT5 fsEmpty none).state "hi" = .ok (ids, strs) ∧
      ids.length = strs.length :=
  c4_tokenize_parallel_lengths t5Demo spmDemo envT5 fsEmpty none "hi" rfl

/-- Witness for C5: decode of tokenize on a concrete non-empty text
returns a non-empty string. -/
theorem c5_witness :
    ∃ ids strs out,
      SentencePieceTokenizer.tokenize t5Demo spmDemo
        (initTokenizer envT5 fsEmpty none).state "hello" = .ok (ids, strs) ∧
      SentencePieceTokenizer.decode t5Demo spmDemo
        (initTokenizer envT5 fsEmpty none).state ids = .ok out ∧ out ≠ "" :=
  c5_decode_tokenize_nonempty t5Demo spmDemo envT5 fsEmpty none "hello"
    t5Demo_roundtrip spmDemo_roundtrip rfl (by decide)

/-- Witness for C6: zero token counts yield exactly zero costs on the
concrete table. -/
theorem c6_witness :
    compute_cost PRICING 0 0 "gpt-4-turbo" = .ok ⟨0, 0, 0⟩ :=
  (c6_compute_cost_formulas PRICING 0 0 "gpt-4-turbo"
    ⟨"gpt-4-turbo", 1 / 100, 3 / 100⟩).2.2.1 rfl

/-- Witness for C7: doubling the input tokens never decreases total cost
on the concrete table. -/
theorem c7_witness :
    List.Forall₂ (fun a b => a.1 = b.1 ∧ a.2.total_cost ≤ b.2.total_cost)
      (compare_models PRICING 3 5) (compare_models PRICING (2 * 3) 5) :=
  (c7_compare_models_order PRICING 3 5).2.1 (by
    intro e he
    simp only [PRICING, List.mem_singleton] at he
    subst he
    norm_num)

/-- Witness for C8: a second initialize after the training fallback
reuses the persisted artifact. -/
theorem c8_witness :
    (initTokenizer envNoT5 (initTokenizer envNoT5 fsEmpty none).fs
        (initTokenizer envNoT5 fsEmpty none).state).success = true ∧
    (initTokenizer envNoT5 (initTokenizer envNoT5 fsEmpty none).fs
        (initTokenizer envNoT5 fsEmpty none).state).state =
      (initTokenizer envNoT5 fsEmpty none).state ∧
    (initTokenizer envNoT5 (initTokenizer envNoT5 fsEmpty none).fs
        (initTokenizer envNoT5 fsEmpty none).state).fs =
      (initTokenizer envNoT5 fsEmpty none).fs ∧
    InitStep.trainModel ∉
      (initTokenizer envNoT5 (initTokenizer envNoT5 fsEmpty none).fs
        (initTokenizer envNoT5 fsEmpty none).state).trace :=
  c8_initialize_idempotent envNoT5 fsEmpty none rfl

/-- Concrete explorer inputs for the C9 witness. -/
def demoInputs : WhatIfInputs :=
  ⟨"hello", t5Demo, spmDemo, (initTokenizer envT5 fsEmpty none).state,
    "gpt-4-turbo", default_sweep⟩

/-- Witness for C9: two runs on the same concrete inputs coincide and
follow the sweep order. -/
theorem c9_witness :
    run_what_if_analysis PRICING demoInputs =
      run_what_if_analysis PRICING demoInputs ∧
    Option.map (List.map Scenario.label) (run_what_if_analysis PRICING demoInputs) =
      Option.map (fun _ => demoInputs.sweep.map scenarioLabel)
        (run_what_if_analysis PRICING demoInputs) :=
  c9_what_if_deterministic PRICING demoInputs demoInputs rfl

/-- Demo CLI file system: every path is an existing readable file. -/
def demoFsys : String → Option FileNode :=
  fun _ => some (.file "quack quack" true)

/-- Witness for C10: an existing readable file replaces the literal text
before token counting. -/
theorem c10_witness :
    resolveInputText demoFsys "notes.txt" = .ok "quack quack" ∧
    countInputTokens demoFsys t5Demo spmDemo
      (initTokenizer envT5 fsEmpty none).state "notes.txt" =
      tokenCountOf t5Demo spmDemo (initTokenizer envT5 fsEmpty none).state
        "quack quack" :=
  (c10_file_input_overrides_literal demoFsys t5Demo spmDemo
    (initTokenizer envT5 fsEmpty none).state "notes.txt" "quack quack").1 rfl
